import Mathlib

/-!
Shallow embedding of the connection-resilience layer of the
firecracker-containerd runtime shim:

* `isConnectionError` — the connection-error classifier
  (src/runtime/connection_manager.go).
* `resilientLoop` / `resilientCall` — the retry-once wrapper loop that every
  method of the five resilient client types repeats verbatim
  (src/runtime/resilient_clients.go): each wrapped RPC method's body is the
  loop `for attempt := 0; attempt <= 1; attempt++ { GetClients; call;
  on connection error at attempt 0 MarkConnectionBroken and continue;
  otherwise return the error }` followed by `return context.DeadlineExceeded`.
  The loop is modelled once, parameterised by the response type and by an
  oracle giving the outcome of `GetClients` and of the underlying call at each
  attempt; a trace records how many underlying calls and how many
  `MarkConnectionBroken` invocations were made.
* `taskTranslator` — the bidirectional clone-task ID translator
  (src/internal/vm/task_translator.go); Go maps are modelled as functions
  `String → Option String`.
* `ConnectionManager` — state and operations of the vsock connection manager
  (src/runtime/connection_manager.go); the dial outcome of each attempt is an
  oracle indexed by the number of dials performed so far, context
  cancellation is an oracle giving `ctx.Err ()` at each backoff wait, and the
  reconnect loop additionally returns the list of backoff sleeps it performed.
-/

/-- gRPC status codes (google.golang.org/grpc/codes). -/
inductive GrpcCode where
  | ok
  | canceled
  | unknown
  | invalidArgument
  | deadlineExceeded
  | notFound
  | alreadyExists
  | permissionDenied
  | resourceExhausted
  | failedPrecondition
  | aborted
  | outOfRange
  | unimplemented
  | internal
  | unavailable
  | dataLoss
  | unauthenticated
deriving DecidableEq, Repr

/-- Model of a non-nil Go `error` value, keeping exactly the observations the
classifier makes: whether the dynamic type satisfies the `net.Error` type
assertion (and then the results of `Timeout ()` and `Temporary ()`), whether
`status.FromError` reports a gRPC status (and then its code), and the text
returned by `Error ()`. A nil Go error is `(none : Option GoError)`. -/
structure GoError where
  netError : Option (Bool × Bool)
  grpcStatus : Option GrpcCode
  msg : String
deriving DecidableEq, Repr

/-- The `connectionErrorPatterns` slice of `isConnectionError`. -/
def connectionErrorPatterns : List String :=
  ["connection refused",
   "connection reset",
   "broken pipe",
   "EOF",
   "connection lost",
   "no such file or directory",
   "context deadline exceeded: unknown"]

/-- Go's suffix test as written in the source:
`len(errStr) > 0 && len(pattern) > 0 && len(errStr) >= len(pattern) &&
errStr[len(errStr)-len(pattern):] == pattern`. -/
def goEndsWith (errStr pat : String) : Bool :=
  decide (0 < errStr.length) && decide (0 < pat.length) &&
    decide (pat.length ≤ errStr.length) &&
    (errStr.data.drop (errStr.length - pat.length) == pat.data)

/-- The textual fallback of the classifier: some fixed pattern is a suffix of
the error message. -/
def matchesConnectionErrorText (errStr : String) : Bool :=
  connectionErrorPatterns.any (fun p => goEndsWith errStr p)

/-- `isConnectionError` from src/runtime/connection_manager.go. Note the
`net.Error` branch returns early: for an error satisfying the `net.Error`
type assertion the result is `Timeout () || Temporary ()` and neither the
gRPC-code check nor the textual check is ever reached. -/
def isConnectionError : Option GoError → Bool
  | none => false
  | some err =>
    match err.netError with
    | some (timeout, temporary) => timeout || temporary
    | none =>
      match err.grpcStatus with
      | some code =>
        match code with
        | GrpcCode.unavailable => true
        | GrpcCode.deadlineExceeded => true
        | GrpcCode.canceled => true
        | _ => matchesConnectionErrorText err.msg
      | none => matchesConnectionErrorText err.msg

/-- Abstract identity of a client bundle (`*AgentClients`); distinct numbers
stand for distinct bundle instances. -/
abbrev Bundle := Nat

/-- Model of `context.DeadlineExceeded`: it satisfies `net.Error` with
`Timeout () = true` and `Temporary () = true`. -/
def contextDeadlineExceededError : GoError :=
  { netError := some (true, true), grpcStatus := none,
    msg := "context deadline exceeded" }

/-- The outcome the environment supplies to one iteration of a wrapper loop:
what `r.cm.GetClients ctx` returns, and what the underlying client call
returns given the bundle. -/
structure AttemptEnv (ρ : Type) where
  getClients : Except GoError Bundle
  call : Bundle → Except GoError ρ

/-- Trace of the observable side effects of a wrapper call: how many times the
underlying client method was invoked and how many times
`MarkConnectionBroken` was called. -/
structure WrapperTrace where
  clientCalls : Nat
  markBrokenCalls : Nat
deriving DecidableEq, Repr

/-- The loop body shared verbatim by every method of the five resilient
client types (ResilientTaskClient, ResilientAgentTaskClient,
ResilientEventBridgeClient, ResilientDriveMountClient,
ResilientIOProxyClient). `fuel` counts the remaining loop iterations
(`attempt <= 1` allows two); when the loop falls through, the method returns
`context.DeadlineExceeded`. -/
def resilientLoop {ρ : Type} (env : Nat → AttemptEnv ρ) :
    Nat → Nat → WrapperTrace → Except GoError ρ × WrapperTrace
  | 0, _attempt, tr => (Except.error contextDeadlineExceededError, tr)
  | fuel + 1, attempt, tr =>
    match (env attempt).getClients with
    | Except.error e => (Except.error e, tr)
    | Except.ok clients =>
      match (env attempt).call clients with
      | Except.ok result =>
        (Except.ok result, { tr with clientCalls := tr.clientCalls + 1 })
      | Except.error e =>
        if isConnectionError (some e) && attempt == 0 then
          resilientLoop env fuel (attempt + 1)
            { clientCalls := tr.clientCalls + 1,
              markBrokenCalls := tr.markBrokenCalls + 1 }
        else
          (Except.error e, { tr with clientCalls := tr.clientCalls + 1 })

/-- One wrapped RPC method call: the loop entered at `attempt = 0` with two
iterations available and an empty trace. -/
def resilientCall {ρ : Type} (env : Nat → AttemptEnv ρ) :
    Except GoError ρ × WrapperTrace :=
  resilientLoop env 2 0 ⟨0, 0⟩

/-- The clone-task ID translator (src/internal/vm/task_translator.go); the two
Go maps are modelled as functions into `Option String`. -/
structure taskTranslator where
  externalToInternal : String → Option String
  internalToExternal : String → Option String

/-- `NewTaskTranslator`: both maps empty. -/
def NewTaskTranslator : taskTranslator :=
  { externalToInternal := fun _ => none,
    internalToExternal := fun _ => none }

/-- `TranslateToInternal`: mapped value if present, else the argument. -/
def TranslateToInternal (t : taskTranslator) (externalID : String) : String :=
  match t.externalToInternal externalID with
  | some internalID => internalID
  | none => externalID

/-- `TranslateToExternal`: mapped value if present, else the argument. -/
def TranslateToExternal (t : taskTranslator) (internalID : String) : String :=
  match t.internalToExternal internalID with
  | some externalID => externalID
  | none => internalID

/-- `RegisterCloneMapping`: insert into both maps (Go map assignment
overwrites the key's previous value and touches no other key). -/
def RegisterCloneMapping (t : taskTranslator) (externalID internalID : String) :
    taskTranslator :=
  { externalToInternal := fun k =>
      if k = externalID then some internalID else t.externalToInternal k,
    internalToExternal := fun k =>
      if k = internalID then some externalID else t.internalToExternal k }

/-- `IsCloneTask`: membership in the external-to-internal map. -/
def IsCloneTask (t : taskTranslator) (externalID : String) : Bool :=
  (t.externalToInternal externalID).isSome

/-- Mutual consistency of the translator's two maps: every entry of one is
mirrored by the reverse entry of the other. -/
def Consistent (t : taskTranslator) : Prop :=
  ∀ e i, t.externalToInternal e = some i ↔ t.internalToExternal i = some e

/-- `ConnectionConfig` (durations in nanoseconds, as Go's `time.Duration`;
`BackoffFactor` is a Go `float64`, modelled as an exact rational). -/
structure ConnectionConfig where
  MaxRetries : Nat
  InitialBackoff : Int
  MaxBackoff : Int
  BackoffFactor : ℚ
  ConnectTimeout : Int

/-- The mutable state of a `ConnectionManager`: the transport (`cm.conn`, set
together with `cm.rpcClient`), the client bundle (`cm.clients`), and the
`connecting` flag. `dialCount` is model bookkeeping: the number of dial
attempts performed so far, used to index the dial oracle. -/
structure CMState where
  conn : Option Bundle
  clients : Option Bundle
  connecting : Bool
  dialCount : Nat
deriving DecidableEq, Repr

/-- `NewConnectionManager`: created with no transport and no bundle. -/
def initialCMState : CMState :=
  { conn := none, clients := none, connecting := false, dialCount := 0 }

/-- `fmt.Errorf ("failed to dial VM over vsock: %w", err)`: the wrapping
error's text is the fixed prefix plus the cause's text; the wrapper produced
by `fmt.Errorf` does not satisfy the `net.Error` type assertion, and the
wrapped cause's gRPC status remains discoverable through unwrapping. -/
def wrapDialError (e : GoError) : GoError :=
  { netError := none, grpcStatus := e.grpcStatus,
    msg := "failed to dial VM over vsock: " ++ e.msg }

/-- The `"connection attempt in progress"` error. -/
def inProgressError : GoError :=
  { netError := none, grpcStatus := none, msg := "connection attempt in progress" }

/-- The `"failed to establish vsock connection after %d attempts"` error,
formatted with `cm.config.MaxRetries + 1`. -/
def exhaustedError (cfg : ConnectionConfig) : GoError :=
  { netError := none, grpcStatus := none,
    msg := "failed to establish vsock connection after "
      ++ toString (cfg.MaxRetries + 1) ++ " attempts" }

namespace ConnectionManager

/-- `cm.connect`: one dial attempt. The oracle `env` gives the outcome of the
`vsock.DialContext` call, indexed by how many dials have been made so far. On
success the transport, rpc client and all five typed clients are stored as
one unit (client construction cannot fail in the source); on failure the
dial error is returned wrapped and no state is stored. -/
def connect (env : Nat → Except GoError Bundle) (s : CMState) :
    CMState × Option GoError :=
  match env s.dialCount with
  | Except.error e =>
    ({ s with dialCount := s.dialCount + 1 }, some (wrapDialError e))
  | Except.ok b =>
    ({ s with conn := some b, clients := some b, dialCount := s.dialCount + 1 },
      none)

/-- `cm.cleanup`: close and clear the rpc client and transport, clear the
bundle. -/
def cleanup (s : CMState) : CMState :=
  { s with conn := none, clients := none }

/-- `cm.Connect`: no-op if already connected, else a single `connect`. -/
def Connect (env : Nat → Except GoError Bundle) (s : CMState) :
    CMState × Option GoError :=
  match s.clients with
  | some _ => (s, none)
  | none => connect env s

/-- `cm.MarkConnectionBroken`: tear down if a bundle exists, else no-op. -/
def MarkConnectionBroken (s : CMState) : CMState :=
  match s.clients with
  | some _ => cleanup s
  | none => s

/-- `cm.Close`: unconditional teardown, always succeeds. -/
def Close (s : CMState) : CMState × Option GoError :=
  (cleanup s, none)

/-- The value Go computes as
`time.Duration (float64 (backoff) * cm.config.BackoffFactor)`, idealised
here as exact rational multiplication truncated toward zero. This
idealisation is deliberately NOT faithful to IEEE-754 float64: the real
computation rounds `backoff` to 53 mantissa bits, rounds the product again,
and truncates through int64 with an implementation-defined result on
overflow (for instance the real update of `backoff = 2 ^ 53 + 1` with
factor 1.0 yields `2 ^ 53 < backoff`). For that reason no theorem in this
file depends on the value this function returns; everything proved about
backoffs goes only through the cap `nextBackoff` applies to it. -/
def backoffMulFloat (cfg : ConnectionConfig) (backoff : Int) : Int :=
  if (0 : ℚ) ≤ (backoff : ℚ) * cfg.BackoffFactor then
    Int.floor ((backoff : ℚ) * cfg.BackoffFactor)
  else
    -Int.floor (-((backoff : ℚ) * cfg.BackoffFactor))

/-- The backoff update performed after each sleep: the float-computed
multiplied backoff, then
`if nextBackoff > cm.config.MaxBackoff { nextBackoff = cm.config.MaxBackoff }`.
The cap is applied to whatever value the multiplication produced. -/
def nextBackoff (cfg : ConnectionConfig) (backoff : Int) : Int :=
  if cfg.MaxBackoff < backoffMulFloat cfg backoff then cfg.MaxBackoff
  else backoffMulFloat cfg backoff

/-- The `for attempt := 0; attempt <= cm.config.MaxRetries; attempt++` retry
loop of `reconnectIfNeeded`. `fuel` counts the remaining iterations (the loop
admits `MaxRetries + 1`); `ctxErr k` is `ctx.Err ()` at the sleep preceding
attempt `k` (`none` when the context is not done). Besides the final state
and the result, the list of backoff durations actually slept is returned. -/
def attemptsLoop (cfg : ConnectionConfig) (env : Nat → Except GoError Bundle)
    (ctxErr : Nat → Option GoError) :
    Nat → Nat → Int → CMState → CMState × Except GoError Bundle × List Int
  | 0, _attempt, _backoff, s => (s, Except.error (exhaustedError cfg), [])
  | fuel + 1, attempt, backoff, s =>
    if 0 < attempt then
      match ctxErr attempt with
      | some e => (s, Except.error e, [])
      | none =>
        match connect env s with
        | (s1, none) => (s1, Except.ok ((s1.clients).getD 0), [backoff])
        | (s1, some _e) =>
          let r := attemptsLoop cfg env ctxErr fuel (attempt + 1)
            (nextBackoff cfg backoff) (cleanup s1)
          (r.1, r.2.1, backoff :: r.2.2)
    else
      match connect env s with
      | (s1, none) => (s1, Except.ok ((s1.clients).getD 0), [])
      | (s1, some _e) =>
        attemptsLoop cfg env ctxErr fuel (attempt + 1) backoff (cleanup s1)

/-- `cm.reconnectIfNeeded`: double-check for a bundle; if another connect is
in flight, wait 50ms and re-check (`other` is what `cm.clients` holds after
the wait — the concurrent goroutine's contribution), failing with the
in-progress error if still absent; otherwise claim the `connecting` flag, run
the retry loop, and release the flag on the way out. -/
def reconnectIfNeeded (cfg : ConnectionConfig)
    (env : Nat → Except GoError Bundle) (ctxErr : Nat → Option GoError)
    (other : Option Bundle) (s : CMState) :
    CMState × Except GoError Bundle × List Int :=
  match s.clients with
  | some b => (s, Except.ok b, [])
  | none =>
    if s.connecting then
      match other with
      | some b => ({ s with clients := some b }, Except.ok b, [])
      | none => (s, Except.error inProgressError, [])
    else
      let r := attemptsLoop cfg env ctxErr (cfg.MaxRetries + 1) 0
        cfg.InitialBackoff { s with connecting := true }
      ({ r.1 with connecting := false }, r.2.1, r.2.2)

/-- `cm.GetClients`: fast path returns an existing bundle; slow path defers
to `reconnectIfNeeded`. -/
def GetClients (cfg : ConnectionConfig) (env : Nat → Except GoError Bundle)
    (ctxErr : Nat → Option GoError) (other : Option Bundle) (s : CMState) :
    CMState × Except GoError Bundle × List Int :=
  match s.clients with
  | some b => (s, Except.ok b, [])
  | none => reconnectIfNeeded cfg env ctxErr other s

end ConnectionManager

/-! Concrete error values used by witnesses and counterexamples. -/

/-- A bare error whose message is "connection refused" and whose dynamic type
is neither a `net.Error` nor a gRPC status (e.g. `errors.New`). -/
def connRefusedError : GoError :=
  { netError := none, grpcStatus := none, msg := "connection refused" }

/-- A bare application-level error (compare the repository's own test case
`errors.New ("some other error")`). -/
def appLevelError : GoError :=
  { netError := none, grpcStatus := none, msg := "some other error" }

/-- A bare dial error. -/
def boomError : GoError :=
  { netError := none, grpcStatus := none, msg := "boom" }

/-- An error whose dynamic type satisfies the `net.Error` type assertion with
`Timeout () = false` and `Temporary () = false`, and whose message is exactly
"connection refused". -/
def netConnRefusedError : GoError :=
  { netError := some (false, false), grpcStatus := none,
    msg := "connection refused" }

/-! ## Theorems -/

/-- C2 (counterexample): the claim quantifies over every non-nil error with a
recognised message suffix, "regardless of the error's dynamic type"; but an
error satisfying the `net.Error` type assertion with `Timeout () = false`
and `Temporary () = false` is classified `false` even though its message is
exactly "connection refused", because the `net.Error` branch of
`isConnectionError` returns early and the textual check is never reached. -/
theorem c2_net_error_shortcircuit_counterexample :
    matchesConnectionErrorText netConnRefusedError.msg = true ∧
    isConnectionError (some netConnRefusedError) = false := by
  exact ⟨by decide, by decide⟩

/-- C2 (amended): for every non-nil error that does not satisfy the
`net.Error` type assertion, if its textual message ends with one of the fixed
connection-failure suffixes then `isConnectionError` returns true, regardless
of the error's gRPC status code. -/
theorem classifier_accepts_connection_suffixes (e : GoError)
    (hnet : e.netError = none)
    (hsuf : matchesConnectionErrorText e.msg = true) :
    isConnectionError (some e) = true := by
  obtain ⟨n, g, m⟩ := e
  simp only at hnet hsuf
  subst hnet
  cases g with
  | none => simpa [isConnectionError] using hsuf
  | some code => cases code <;> simp_all [isConnectionError]

/-- A non-`net.Error` error carrying an unrelated gRPC code and a message
ending in "connection lost". -/
def lostWithNotFoundError : GoError :=
  { netError := none, grpcStatus := some GrpcCode.notFound,
    msg := "vsock: connection lost" }

/-- Witness for C2's amended theorem at a concrete error that carries an
unrelated gRPC code and a message ending in "connection lost". -/
theorem classifier_accepts_connection_suffixes_witness :
    isConnectionError (some lostWithNotFoundError) = true :=
  classifier_accepts_connection_suffixes lostWithNotFoundError rfl (by decide)

/-- C1: for every wrapped RPC method (the identical loop of all five
resilient client types), if the underlying call fails with a
connection-level error on the first attempt and again on the retry, the
wrapper makes exactly two underlying calls, calls `MarkConnectionBroken`
exactly once, and returns the second failure's error unchanged. -/
theorem wrapper_double_connection_failure {ρ : Type} (env : Nat → AttemptEnv ρ)
    (c0 c1 : Bundle) (e0 e1 : GoError)
    (hg0 : (env 0).getClients = Except.ok c0)
    (hc0 : (env 0).call c0 = Except.error e0)
    (he0 : isConnectionError (some e0) = true)
    (hg1 : (env 1).getClients = Except.ok c1)
    (hc1 : (env 1).call c1 = Except.error e1)
    (he1 : isConnectionError (some e1) = true) :
    resilientCall env = (Except.error e1, ⟨2, 1⟩) := by
  simp [resilientCall, resilientLoop, hg0, hc0, he0, hg1, hc1]

/-- Witness for C1 at a concrete environment in which every underlying call
fails with a bare "connection refused" error. -/
theorem wrapper_double_connection_failure_witness :
    resilientCall (ρ := Nat) (fun _ =>
        { getClients := Except.ok 0,
          call := fun _ => Except.error connRefusedError })
      = (Except.error connRefusedError, ⟨2, 1⟩) :=
  wrapper_double_connection_failure _ 0 0 connRefusedError connRefusedError
    rfl rfl (by decide) rfl rfl (by decide)

/-- C3: for every wrapped RPC method, an underlying failure classified as
application-level is returned to the caller on the first failure, with no
second underlying call and no call to `MarkConnectionBroken`. -/
theorem wrapper_application_error {ρ : Type} (env : Nat → AttemptEnv ρ)
    (c0 : Bundle) (e0 : GoError)
    (hg0 : (env 0).getClients = Except.ok c0)
    (hc0 : (env 0).call c0 = Except.error e0)
    (he0 : isConnectionError (some e0) = false) :
    resilientCall env = (Except.error e0, ⟨1, 0⟩) := by
  simp [resilientCall, resilientLoop, hg0, hc0, he0]

/-- Witness for C3 at a concrete environment whose underlying call fails with
"some other error". -/
theorem wrapper_application_error_witness :
    resilientCall (ρ := Nat) (fun _ =>
        { getClients := Except.ok 0,
          call := fun _ => Except.error appLevelError })
      = (Except.error appLevelError, ⟨1, 0⟩) :=
  wrapper_application_error _ 0 appLevelError rfl rfl (by decide)

/-- C5 (counterexample): `Connect` does not return the dial error value
unchanged — it wraps it with `fmt.Errorf ("failed to dial VM over vsock: %w",
err)`, so the returned error differs from the error the transport dial
produced. -/
theorem c5_connect_wraps_error_counterexample :
    (ConnectionManager.Connect (fun _ => Except.error boomError)
        initialCMState).2 ≠ some boomError ∧
    (ConnectionManager.Connect (fun _ => Except.error boomError)
        initialCMState).2 = some (wrapDialError boomError) := by
  exact ⟨by decide, rfl⟩

/-- C5 (amended): when `Connect` is called while not connected and the single
dial attempt fails, it returns the dial error wrapped with the fixed
"failed to dial VM over vsock: " context (not the dial error verbatim — the
wrapped error is never equal to the original), performs exactly one dial
attempt, and does not retry. -/
theorem connect_single_attempt_wrapped_error
    (env : Nat → Except GoError Bundle) (s : CMState) (e : GoError)
    (hnc : s.clients = none) (hdial : env s.dialCount = Except.error e) :
    ConnectionManager.Connect env s
      = ({ s with dialCount := s.dialCount + 1 }, some (wrapDialError e)) ∧
    wrapDialError e ≠ e := by
  constructor
  · simp [ConnectionManager.Connect, ConnectionManager.connect, hnc, hdial]
  · intro h
    have hm := congrArg GoError.msg h
    simp only [wrapDialError] at hm
    have hl := congrArg String.length hm
    rw [String.length_append] at hl
    have h30 : "failed to dial VM over vsock: ".length = 30 := rfl
    rw [h30] at hl
    omega

/-- Witness for C5's amended theorem at a concrete dial failure. -/
theorem connect_single_attempt_wrapped_error_witness :
    ConnectionManager.Connect (fun _ => Except.error boomError) initialCMState
      = ({ initialCMState with dialCount := 1 }, some (wrapDialError boomError))
    ∧ wrapDialError boomError ≠ boomError :=
  connect_single_attempt_wrapped_error (fun _ => Except.error boomError)
    initialCMState boomError rfl rfl

/-- C8: translation is the identity for any ID with no registered mapping and
`IsCloneTask` is false there; after `RegisterCloneMapping` on a fresh
translator, the two translations invert each other on the registered pair and
`IsCloneTask` holds for the external ID. -/
theorem translator_identity_and_clone_mapping :
    (∀ (t : taskTranslator) (id : String),
        t.externalToInternal id = none → TranslateToInternal t id = id) ∧
    (∀ (t : taskTranslator) (id : String),
        t.internalToExternal id = none → TranslateToExternal t id = id) ∧
    (∀ (t : taskTranslator) (id : String),
        t.externalToInternal id = none → IsCloneTask t id = false) ∧
    (∀ extID intID : String,
        TranslateToInternal (RegisterCloneMapping NewTaskTranslator extID intID)
            extID = intID ∧
        TranslateToExternal (RegisterCloneMapping NewTaskTranslator extID intID)
            intID = extID ∧
        IsCloneTask (RegisterCloneMapping NewTaskTranslator extID intID)
            extID = true) := by
  refine ⟨?_, ?_, ?_, ?_⟩
  · intro t id h; simp [TranslateToInternal, h]
  · intro t id h; simp [TranslateToExternal, h]
  · intro t id h; simp [IsCloneTask, h]
  · intro extID intID
    refine ⟨?_, ?_, ?_⟩ <;>
      simp [TranslateToInternal, TranslateToExternal, IsCloneTask,
        RegisterCloneMapping, NewTaskTranslator]

/-- Witness for C8 at the spec's own example IDs. -/
theorem translator_identity_and_clone_mapping_witness :
    TranslateToInternal NewTaskTranslator "unmapped" = "unmapped" ∧
    TranslateToExternal NewTaskTranslator "unmapped" = "unmapped" ∧
    IsCloneTask NewTaskTranslator "unmapped" = false ∧
    (TranslateToInternal (RegisterCloneMapping NewTaskTranslator "ext1" "int1")
        "ext1" = "int1" ∧
     TranslateToExternal (RegisterCloneMapping NewTaskTranslator "ext1" "int1")
        "int1" = "ext1" ∧
     IsCloneTask (RegisterCloneMapping NewTaskTranslator "ext1" "int1")
        "ext1" = true) :=
  ⟨translator_identity_and_clone_mapping.1 NewTaskTranslator "unmapped" rfl,
   translator_identity_and_clone_mapping.2.1 NewTaskTranslator "unmapped" rfl,
   translator_identity_and_clone_mapping.2.2.1 NewTaskTranslator "unmapped" rfl,
   translator_identity_and_clone_mapping.2.2.2 "ext1" "int1"⟩

/-- Helper: the empty translator is consistent. -/
theorem newTranslator_Consistent : Consistent NewTaskTranslator := by
  intro e i
  simp [NewTaskTranslator]

/-- Helper: `RegisterCloneMapping` preserves mutual consistency provided the
external ID is not currently mapped to a different internal partner and the
internal ID is not currently mapped to a different external partner. -/
theorem register_preserves_Consistent (t : taskTranslator) (e i : String)
    (ht : Consistent t)
    (he : ∀ j, t.externalToInternal e = some j → j = i)
    (hi : ∀ f, t.internalToExternal i = some f → f = e) :
    Consistent (RegisterCloneMapping t e i) := by
  intro a b
  simp only [RegisterCloneMapping]
  by_cases ha : a = e <;> by_cases hb : b = i
  · simp [if_pos ha, if_pos hb, ha, hb]
  · rw [if_pos ha, if_neg hb]
    constructor
    · intro h
      exact absurd (Option.some.inj h).symm hb
    · intro h
      rw [ha] at h
      exact absurd (he b ((ht e b).mpr h)) hb
  · rw [if_neg ha, if_pos hb]
    constructor
    · intro h
      rw [hb] at h
      exact absurd (hi a ((ht a i).mp h)) ha
    · intro h
      exact absurd (Option.some.inj h).symm ha
  · rw [if_neg ha, if_neg hb]
    exact ht a b

/-- C4 (counterexample): re-registering an already-mapped internal ID with a
new external partner breaks mutual consistency. After
`RegisterCloneMapping ("a", "x")` the maps are consistent; after a further
`RegisterCloneMapping ("b", "x")` the external-to-internal map still holds
"a" -> "x" but the internal-to-external map holds "x" -> "b", so the reverse
entry of "a" -> "x" is gone. -/
theorem c4_overwrite_breaks_consistency_counterexample :
    Consistent (RegisterCloneMapping NewTaskTranslator "a" "x") ∧
    ¬ Consistent (RegisterCloneMapping
        (RegisterCloneMapping NewTaskTranslator "a" "x") "b" "x") := by
  constructor
  · exact register_preserves_Consistent NewTaskTranslator "a" "x"
      newTranslator_Consistent
      (fun j h => by simp [NewTaskTranslator] at h)
      (fun f h => by simp [NewTaskTranslator] at h)
  · intro hcon
    have h := (hcon "a" "x").mp (by decide)
    exact absurd h (by decide)

/-- C4 (amended): the empty translator is consistent, and
`RegisterCloneMapping` preserves mutual consistency of the two maps whenever
the call does not re-register an already-mapped external or internal ID with
a new partner (re-registering with a different partner leaves a stale forward
entry and breaks the invariant). -/
theorem clone_mapping_consistency :
    Consistent NewTaskTranslator ∧
    ∀ (t : taskTranslator) (e i : String), Consistent t →
      (∀ j, t.externalToInternal e = some j → j = i) →
      (∀ f, t.internalToExternal i = some f → f = e) →
      Consistent (RegisterCloneMapping t e i) :=
  ⟨newTranslator_Consistent,
   fun t e i ht he hi => register_preserves_Consistent t e i ht he hi⟩

/-- Witness for C4's amended theorem: registering a fresh pair on the empty
translator yields a consistent translator. -/
theorem clone_mapping_consistency_witness :
    Consistent (RegisterCloneMapping NewTaskTranslator "ext1" "int1") :=
  clone_mapping_consistency.2 NewTaskTranslator "ext1" "int1"
    clone_mapping_consistency.1
    (fun j h => by simp [NewTaskTranslator] at h)
    (fun f h => by simp [NewTaskTranslator] at h)

open ConnectionManager

/-- Helper: capping at `M` yields at most `M`, whatever value `x` is. -/
theorem cap_le_max (M x : Int) : (if M < x then M else x) ≤ M := by
  split
  · exact le_refl M
  · omega

/-- Helper: the updated backoff never exceeds `MaxBackoff` — the proof uses
only the cap, not the value `backoffMulFloat` computes, so it holds under
any semantics of the float64 multiplication (IEEE-754 rounding and
implementation-defined overflow included). -/
theorem nextBackoff_le_max (cfg : ConnectionConfig) (b : Int) :
    nextBackoff cfg b ≤ cfg.MaxBackoff := by
  unfold nextBackoff
  exact cap_le_max cfg.MaxBackoff (backoffMulFloat cfg b)

/-- Helper: a list whose head (if any) is `c ≤ M` and whose tail is bounded
by `M` is bounded by `M`. -/
theorem mem_le_of_head_tail {l : List Int} {M c : Int}
    (hh : l.head? = none ∨ l.head? = some c) (hc : c ≤ M)
    (ht : ∀ d ∈ l.tail, d ≤ M) : ∀ d ∈ l, d ≤ M := by
  intro d hd
  cases l with
  | nil => simp at hd
  | cons a as =>
    rcases List.mem_cons.mp hd with rfl | hmem
    · rcases hh with h | h
      · simp at h
      · simp only [List.head?_cons, Option.some.injEq] at h
        rw [h]
        exact hc
    · exact ht d (by simpa using hmem)

/-- Helper: in any run of the retry loop, the first slept delay (when any
sleep happens) is exactly the backoff the loop was entered with, and every
later delay is an updated, capped backoff, hence at most `MaxBackoff`. The
proof never inspects the value of the float-computed multiplication. -/
theorem attemptsLoop_sleeps_head_tail (cfg : ConnectionConfig)
    (env : Nat → Except GoError Bundle) (ctxErr : Nat → Option GoError) :
    ∀ (fuel attempt : Nat) (backoff : Int) (s : CMState),
      ((attemptsLoop cfg env ctxErr fuel attempt backoff s).2.2.head? = none ∨
       (attemptsLoop cfg env ctxErr fuel attempt backoff s).2.2.head?
         = some backoff) ∧
      ∀ d ∈ (attemptsLoop cfg env ctxErr fuel attempt backoff s).2.2.tail,
        d ≤ cfg.MaxBackoff := by
  intro fuel
  induction fuel with
  | zero =>
    intro attempt backoff s
    simp [attemptsLoop]
  | succ n ih =>
    intro attempt backoff s
    simp only [attemptsLoop]
    by_cases hatt : 0 < attempt
    · rw [if_pos hatt]
      cases hce : ctxErr attempt with
      | some e => simp
      | none =>
        cases henv : env s.dialCount with
        | ok bb => simp [connect, henv]
        | error e =>
          simp only [connect, henv]
          obtain ⟨ihh, iht⟩ := ih (attempt + 1) (nextBackoff cfg backoff)
            (cleanup { s with dialCount := s.dialCount + 1 })
          refine ⟨Or.inr (by simp), ?_⟩
          intro d hd
          simp only [List.tail_cons] at hd
          exact mem_le_of_head_tail ihh
            (nextBackoff_le_max cfg backoff) iht d hd
    · rw [if_neg hatt]
      cases henv : env s.dialCount with
      | ok bb => simp [connect, henv]
      | error e =>
        simp only [connect, henv]
        exact ih (attempt + 1) backoff
          (cleanup { s with dialCount := s.dialCount + 1 })

/-- Helper: the retry loop never performs more dial attempts than its fuel. -/
theorem attemptsLoop_dialCount_le (cfg : ConnectionConfig)
    (env : Nat → Except GoError Bundle) (ctxErr : Nat → Option GoError) :
    ∀ (fuel attempt : Nat) (backoff : Int) (s : CMState),
      (attemptsLoop cfg env ctxErr fuel attempt backoff s).1.dialCount
        ≤ s.dialCount + fuel := by
  intro fuel
  induction fuel with
  | zero =>
    intro attempt backoff s
    simp [attemptsLoop]
  | succ n ih =>
    intro attempt backoff s
    simp only [attemptsLoop]
    by_cases hatt : 0 < attempt
    · rw [if_pos hatt]
      cases hce : ctxErr attempt with
      | some e => simp
      | none =>
        cases henv : env s.dialCount with
        | ok bb => simp [connect, henv]
        | error e =>
          simp only [connect, henv]
          have h := ih (attempt + 1) (nextBackoff cfg backoff)
            (cleanup { s with dialCount := s.dialCount + 1 })
          simp only [cleanup] at h
          simpa using Nat.le_trans h (by omega)
    · rw [if_neg hatt]
      cases henv : env s.dialCount with
      | ok bb => simp [connect, henv]
      | error e =>
        simp only [connect, henv]
        have h := ih (attempt + 1) backoff
          (cleanup { s with dialCount := s.dialCount + 1 })
        simp only [cleanup] at h
        exact Nat.le_trans h (by omega)

/-- Helper: when every dial fails and the context is never done, the retry
loop consumes all its fuel in dial attempts, ends disconnected, and returns
the exhaustion error. -/
theorem attemptsLoop_allFail (cfg : ConnectionConfig)
    (env : Nat → Except GoError Bundle) (ctxErr : Nat → Option GoError)
    (henv : ∀ k, ∃ e, env k = Except.error e)
    (hctx : ∀ k, ctxErr k = none) :
    ∀ (fuel attempt : Nat) (backoff : Int) (s : CMState),
      s.conn = none → s.clients = none →
      (attemptsLoop cfg env ctxErr fuel attempt backoff s).1
        = { conn := none, clients := none, connecting := s.connecting,
            dialCount := s.dialCount + fuel } ∧
      (attemptsLoop cfg env ctxErr fuel attempt backoff s).2.1
        = Except.error (exhaustedError cfg) := by
  intro fuel
  induction fuel with
  | zero =>
    intro attempt backoff s hconn hcl
    rcases s with ⟨sc, scl, sco, sd⟩
    simp only at hconn hcl
    subst hconn
    subst hcl
    simp [attemptsLoop]
  | succ n ih =>
    intro attempt backoff s hconn hcl
    obtain ⟨e, henvd⟩ := henv s.dialCount
    simp only [attemptsLoop]
    by_cases hatt : 0 < attempt
    · rw [if_pos hatt, hctx attempt]
      simp only [connect, henvd]
      have h := ih (attempt + 1) (nextBackoff cfg backoff)
        (cleanup { s with dialCount := s.dialCount + 1 }) rfl rfl
      simp only [cleanup] at h ⊢
      refine ⟨?_, h.2⟩
      rw [h.1]
      congr 1
      omega
    · rw [if_neg hatt]
      simp only [connect, henvd]
      have h := ih (attempt + 1) backoff
        (cleanup { s with dialCount := s.dialCount + 1 }) rfl rfl
      simp only [cleanup] at h ⊢
      refine ⟨?_, h.2⟩
      rw [h.1]
      congr 1
      omega

/-- C6: the reconnect slow path performs at most `MaxRetries + 1` dial
attempts for any inputs; and if every dial fails (no cancellation), it
returns the "failed to establish vsock connection after N attempts" error
with `N = MaxRetries + 1` and leaves the manager disconnected (no transport,
no client bundle, flag released), having made exactly `MaxRetries + 1`
attempts. -/
theorem reconnect_attempt_budget (cfg : ConnectionConfig)
    (env : Nat → Except GoError Bundle) (ctxErr : Nat → Option GoError)
    (other : Option Bundle) :
    (∀ s : CMState,
      (reconnectIfNeeded cfg env ctxErr other s).1.dialCount
        ≤ s.dialCount + (cfg.MaxRetries + 1)) ∧
    (∀ s : CMState, s.clients = none → s.conn = none → s.connecting = false →
      (∀ k, ∃ e, env k = Except.error e) → (∀ k, ctxErr k = none) →
      (reconnectIfNeeded cfg env ctxErr other s).1
        = { conn := none, clients := none, connecting := false,
            dialCount := s.dialCount + (cfg.MaxRetries + 1) } ∧
      (reconnectIfNeeded cfg env ctxErr other s).2.1
        = Except.error (exhaustedError cfg)) := by
  constructor
  · intro s
    unfold reconnectIfNeeded
    cases hcl : s.clients with
    | some b => simp
    | none =>
      by_cases hcg : s.connecting
      · rw [if_pos hcg]
        cases other with
        | some b => simp
        | none => simp
      · rw [if_neg hcg]
        have h := attemptsLoop_dialCount_le cfg env ctxErr
          (cfg.MaxRetries + 1) 0 cfg.InitialBackoff { s with connecting := true }
        rw [hcl] at h
        simpa using h
  · intro s hcl hconn hcg henv hctx
    unfold reconnectIfNeeded
    rw [hcl, if_neg (by rw [hcg]; exact Bool.false_ne_true)]
    have h := attemptsLoop_allFail cfg env ctxErr henv hctx
      (cfg.MaxRetries + 1) 0 cfg.InitialBackoff { s with connecting := true }
      hconn hcl
    rw [hcl] at h
    refine ⟨?_, by simpa using h.2⟩
    simp only
    rw [h.1]

/-- A concrete configuration whose `InitialBackoff` (10) exceeds its
`MaxBackoff` (5). -/
def c9cfg : ConnectionConfig :=
  { MaxRetries := 1, InitialBackoff := 10, MaxBackoff := 5,
    BackoffFactor := 2, ConnectTimeout := 100 }

/-- Witness for C6: with `MaxRetries = 1`, every dial failing and no
cancellation, the slow path makes exactly two attempts, returns the
exhaustion error and ends disconnected. -/
theorem reconnect_attempt_budget_witness :
    (reconnectIfNeeded c9cfg (fun _ => Except.error boomError) (fun _ => none)
        none initialCMState).1.dialCount
      ≤ initialCMState.dialCount + (c9cfg.MaxRetries + 1) ∧
    (reconnectIfNeeded c9cfg (fun _ => Except.error boomError) (fun _ => none)
        none initialCMState).1
      = { conn := none, clients := none, connecting := false,
          dialCount := initialCMState.dialCount + (c9cfg.MaxRetries + 1) } ∧
    (reconnectIfNeeded c9cfg (fun _ => Except.error boomError) (fun _ => none)
        none initialCMState).2.1
      = Except.error (exhaustedError c9cfg) :=
  ⟨(reconnect_attempt_budget c9cfg (fun _ => Except.error boomError)
      (fun _ => none) none).1 initialCMState,
   ((reconnect_attempt_budget c9cfg (fun _ => Except.error boomError)
      (fun _ => none) none).2 initialCMState rfl rfl rfl
      (fun _ => ⟨boomError, rfl⟩) (fun _ => rfl)).1,
   ((reconnect_attempt_budget c9cfg (fun _ => Except.error boomError)
      (fun _ => none) none).2 initialCMState rfl rfl rfl
      (fun _ => ⟨boomError, rfl⟩) (fun _ => rfl)).2⟩

/-- C9 (counterexample): the claim quantifies over every configuration, but
nothing caps the first sleep: with `InitialBackoff = 10` and
`MaxBackoff = 5`, the one backoff delay slept during the failing run is 10,
which exceeds the configured maximum. -/
theorem c9_initial_backoff_exceeds_cap_counterexample :
    (reconnectIfNeeded c9cfg (fun _ => Except.error boomError) (fun _ => none)
        none initialCMState).2.2 = [10] ∧
    ¬ ((10 : Int) ≤ c9cfg.MaxBackoff) := by
  exact ⟨rfl, by decide⟩

/-- C9 (amended): during one reconnect slow-path run, the first backoff
sleep delay (when any sleep happens) is exactly `InitialBackoff` — the
configured cap is never applied to it — and every subsequent delay is
bounded above by `MaxBackoff`, because the cap is applied to every updated
backoff whatever value the float64 multiplication produced. No monotonicity
is claimed: the update `time.Duration (float64 (backoff) * BackoffFactor)`
is computed in IEEE-754 float64, whose rounding can make the real delay
sequence decrease even under `BackoffFactor = 1.0` and
`InitialBackoff = MaxBackoff` (at `2 ^ 53 + 1` ns the delays are
`2 ^ 53 + 1` then `2 ^ 53`), so a monotonicity statement is a property of
float64 arithmetic outside this embedding. The theorem proved here holds of
the program under any behaviour of that multiplication, since its proof
never inspects the multiplied value — only the cap. -/
theorem reconnect_first_delay_uncapped_rest_capped (cfg : ConnectionConfig)
    (env : Nat → Except GoError Bundle) (ctxErr : Nat → Option GoError)
    (other : Option Bundle) (s : CMState) :
    ((reconnectIfNeeded cfg env ctxErr other s).2.2.head? = none ∨
     (reconnectIfNeeded cfg env ctxErr other s).2.2.head?
       = some cfg.InitialBackoff) ∧
    ∀ d ∈ (reconnectIfNeeded cfg env ctxErr other s).2.2.tail,
      d ≤ cfg.MaxBackoff := by
  unfold reconnectIfNeeded
  cases hcl : s.clients with
  | some b => simp
  | none =>
    by_cases hcg : s.connecting
    · rw [if_pos hcg]
      cases other with
      | some b => simp
      | none => simp
    · rw [if_neg hcg]
      obtain ⟨hh, ht⟩ := attemptsLoop_sleeps_head_tail cfg env ctxErr
        (cfg.MaxRetries + 1) 0 cfg.InitialBackoff { s with connecting := true }
      rw [hcl] at hh ht
      exact ⟨by simpa using hh, fun d hd => ht d (by simpa using hd)⟩

/-- Helper: any bundle the retry loop returns successfully was produced by
some dial of the environment. -/
theorem attemptsLoop_ok_from_env (cfg : ConnectionConfig)
    (env : Nat → Except GoError Bundle) (ctxErr : Nat → Option GoError) :
    ∀ (fuel attempt : Nat) (backoff : Int) (s : CMState) (b : Bundle),
      (attemptsLoop cfg env ctxErr fuel attempt backoff s).2.1 = Except.ok b →
      ∃ k, env k = Except.ok b := by
  intro fuel
  induction fuel with
  | zero =>
    intro attempt backoff s b h
    simp [attemptsLoop] at h
  | succ n ih =>
    intro attempt backoff s b h
    simp only [attemptsLoop] at h
    by_cases hatt : 0 < attempt
    · rw [if_pos hatt] at h
      cases hce : ctxErr attempt with
      | some e =>
        rw [hce] at h
        simp at h
      | none =>
        rw [hce] at h
        cases henv : env s.dialCount with
        | error e =>
          simp only [connect, henv] at h
          exact ih (attempt + 1) (nextBackoff cfg backoff)
            (cleanup { s with dialCount := s.dialCount + 1 }) b (by simpa using h)
        | ok bb =>
          simp only [connect, henv] at h
          simp at h
          exact ⟨s.dialCount, by rw [henv, h]⟩
    · rw [if_neg hatt] at h
      cases henv : env s.dialCount with
      | error e =>
        simp only [connect, henv] at h
        exact ih (attempt + 1) backoff
          (cleanup { s with dialCount := s.dialCount + 1 }) b (by simpa using h)
      | ok bb =>
        simp only [connect, henv] at h
        simp at h
        exact ⟨s.dialCount, by rw [henv, h]⟩

/-- C7: `MarkConnectionBroken` on a connected manager clears the stored
bundle, so the next `GetClients` takes the reconnect slow path rather than
returning the previous bundle instance (under environments that never
re-produce that instance, the result is never that bundle); and
`MarkConnectionBroken` on a disconnected manager is a no-op. -/
theorem markBroken_clears_and_forces_reconnect (cfg : ConnectionConfig)
    (env : Nat → Except GoError Bundle) (ctxErr : Nat → Option GoError)
    (other : Option Bundle) (s : CMState) (b : Bundle)
    (hb : s.clients = some b)
    (henv : ∀ k b2, env k = Except.ok b2 → b2 ≠ b)
    (hother : ∀ b2, other = some b2 → b2 ≠ b) :
    (MarkConnectionBroken s).clients = none ∧
    GetClients cfg env ctxErr other (MarkConnectionBroken s)
      = reconnectIfNeeded cfg env ctxErr other (MarkConnectionBroken s) ∧
    (GetClients cfg env ctxErr other (MarkConnectionBroken s)).2.1
      ≠ Except.ok b ∧
    ∀ s2 : CMState, s2.clients = none → MarkConnectionBroken s2 = s2 := by
  have hmk : MarkConnectionBroken s = cleanup s := by
    simp [MarkConnectionBroken, hb]
  have hclears : (MarkConnectionBroken s).clients = none := by
    rw [hmk]
    rfl
  have hget : GetClients cfg env ctxErr other (MarkConnectionBroken s)
      = reconnectIfNeeded cfg env ctxErr other (MarkConnectionBroken s) := by
    unfold GetClients
    rw [hclears]
  refine ⟨hclears, hget, ?_, ?_⟩
  · rw [hget]
    unfold reconnectIfNeeded
    rw [hclears]
    by_cases hcg : (MarkConnectionBroken s).connecting
    · rw [if_pos hcg]
      cases hoth : other with
      | some b2 =>
        intro hok
        simp at hok
        exact hother b2 hoth hok
      | none => simp
    · rw [if_neg hcg]
      intro hok
      simp only at hok
      obtain ⟨k, hk⟩ := attemptsLoop_ok_from_env cfg env ctxErr
        (cfg.MaxRetries + 1) 0 cfg.InitialBackoff _ b hok
      exact henv k b hk rfl
  · intro s2 h2
    simp [MarkConnectionBroken, h2]

/-- A connected manager state holding bundle instance 7. -/
def connectedState : CMState :=
  { conn := some 7, clients := some 7, connecting := false, dialCount := 0 }

/-- Witness for C7 at a connected manager whose reconnect environment only
fails: the bundle is cleared, `GetClients` enters the reconnect path and
cannot return the old instance, and marking a disconnected manager is a
no-op. -/
theorem markBroken_clears_and_forces_reconnect_witness :
    (MarkConnectionBroken connectedState).clients = none ∧
    GetClients c9cfg (fun _ => Except.error boomError) (fun _ => none) none
        (MarkConnectionBroken connectedState)
      = reconnectIfNeeded c9cfg (fun _ => Except.error boomError)
          (fun _ => none) none (MarkConnectionBroken connectedState) ∧
    (GetClients c9cfg (fun _ => Except.error boomError) (fun _ => none) none
        (MarkConnectionBroken connectedState)).2.1 ≠ Except.ok 7 ∧
    ∀ s2 : CMState, s2.clients = none → MarkConnectionBroken s2 = s2 :=
  markBroken_clears_and_forces_reconnect c9cfg
    (fun _ => Except.error boomError) (fun _ => none) none connectedState 7
    rfl (fun _ _ h => Except.noConfusion h) (fun _ h => Option.noConfusion h)
